import Mathlib

/-!
Verification development for the Time-Traveller browser extension
(Time Virtualization & Propagation Subsystem).

The development shallowly embeds the TypeScript sources:
  * `src/util/storage.ts` — the durable State Store (`GlobalState`,
    `getGlobalState`, `setGlobalState`, `updateGlobalFakeDate`,
    `updateGlobalClockState`, `setGlobalEnabled`);
  * the background worker (`worker.ts`) — the Propagation Coordinator
    (`applyGlobalStateToTab`, `applyGlobalStateToAllTabs`, the
    `chrome.storage.onChanged` listener, the `updateGlobalStateFromAPI`
    message handler, `isRestrictedUrl`, `isAllowedWebsite`);
  * the in-page content script (`replace_date.ts`) — the Clock Engine
    (`getFromStorage`, `getTickStartTimestamp`, `fakeNowDate`, `FakeDate`,
    the `Intl.DateTimeFormat` `format` replacement);
  * the API bridge content script (`api_bridge.ts`) —
    `handleUpdateGlobalState`, `handleDisableTimeTravel`;
  * the popup-side helper (`setGlobalFakeTime`).

JavaScript numbers that can be `NaN` are embedded as `JSNum`
(an `Int` or `nan`); `string | null` fields are `Option String`;
`field?: T` optional parameters are `Option T` (with `Option (Option T)`
when `null` and `undefined` are distinguishable); JavaScript string
truthiness (`null`/`undefined`/`""` are falsy) is modelled explicitly.
Host primitives that are not repository code (the JS `Date`-string parser,
`Intl` formatting, the `parseDate` helper of `util/common`) appear as
explicit function parameters of the embedded definitions.
-/

/-! ### JavaScript value helpers -/

/-- A JavaScript number that may be `NaN`: the payload of a `Date`
(its millisecond timestamp) or the result of `Number.parseInt`. -/
inductive JSNum where
  | nan : JSNum
  | num : Int → JSNum
deriving DecidableEq, Repr

/-- JavaScript `+` on numbers: `NaN` absorbs. -/
def jsAdd : JSNum → JSNum → JSNum
  | JSNum.num a, JSNum.num b => JSNum.num (a + b)
  | _, _ => JSNum.nan

/-- JavaScript `-` on numbers: `NaN` absorbs. -/
def jsSub : JSNum → JSNum → JSNum
  | JSNum.num a, JSNum.num b => JSNum.num (a - b)
  | _, _ => JSNum.nan

/-- Whitespace characters skipped by `Number.parseInt`. -/
def isJsWhitespace (c : Char) : Bool :=
  c = ' ' || c = '\t' || c = '\n' || c = '\r'

/-- Decimal digit test. -/
def isDecDigit (c : Char) : Bool :=
  '0' ≤ c && c ≤ '9'

/-- Value of a list of decimal digits. -/
def decDigitsVal (cs : List Char) : Nat :=
  cs.foldl (fun acc c => acc * 10 + (c.toNat - '0'.toNat)) 0

/-- Model of the host primitive `Number.parseInt(s)` (radix 10):
skip leading whitespace, an optional sign, then take the longest run of
leading decimal digits; if there is none the result is `NaN`.
`Number.parseInt` never throws, so the `catch` clause around it in
`getTickStartTimestamp` is unreachable.  (The `0x` hexadecimal special
case of the primitive is not modelled; no input in this system uses it —
tick anchors are produced by `Date.now().toString()`.) -/
def jsParseInt (s : String) : JSNum :=
  let cs := s.data.dropWhile isJsWhitespace
  let signAndRest : Int × List Char :=
    match cs with
    | '-' :: rest => (-1, rest)
    | '+' :: rest => (1, rest)
    | _ => (1, cs)
  let digits := signAndRest.2.takeWhile isDecDigit
  if digits.isEmpty then JSNum.nan
  else JSNum.num (signAndRest.1 * (decDigitsVal digits : Int))

/-- JavaScript truthiness of a `string | null | undefined` value:
`null`, `undefined` and the empty string are falsy. -/
def truthyStr : Option String → Bool
  | none => false
  | some s => s ≠ ""

/-! ### State Store (`src/util/storage.ts`) -/

/-- The `GlobalState` record persisted under `timeTravelGlobalState`
(interface `GlobalState` of `storage.ts`). -/
structure GlobalState where
  isGlobalEnabled : Bool
  fakeDate : Option String
  tickStartTimestamp : Option String
  isClockStopped : Bool
deriving DecidableEq, Repr

/-- `DEFAULT_STATE` of `storage.ts`. -/
def DEFAULT_STATE : GlobalState :=
  { isGlobalEnabled := false
    fakeDate := none
    tickStartTimestamp := none
    isClockStopped := true }

/-- A `Partial<GlobalState>`: for each field, `none` means the key is
absent from the partial record; for the two `string | null` fields a
present key carries `Option String`. -/
structure PartialGlobalState where
  isGlobalEnabled : Option Bool
  fakeDate : Option (Option String)
  tickStartTimestamp : Option (Option String)
  isClockStopped : Option Bool
deriving DecidableEq, Repr

/-- The empty partial record (no keys present). -/
def emptyPartial : PartialGlobalState :=
  { isGlobalEnabled := none
    fakeDate := none
    tickStartTimestamp := none
    isClockStopped := none }

/-- JavaScript object spread `{ ...base, ...p }`: keys present in `p`
override those of `base`. -/
def mergeState (base : GlobalState) (p : PartialGlobalState) : GlobalState :=
  { isGlobalEnabled := p.isGlobalEnabled.getD base.isGlobalEnabled
    fakeDate := p.fakeDate.getD base.fakeDate
    tickStartTimestamp := p.tickStartTimestamp.getD base.tickStartTimestamp
    isClockStopped := p.isClockStopped.getD base.isClockStopped }

/-- Outcome of the underlying `chrome.storage.local.get` call:
either it succeeds, returning the stored partial record (or nothing
when no record is persisted), or it raises. -/
inductive StoreReadResult where
  | ok : Option PartialGlobalState → StoreReadResult
  | err : StoreReadResult

/-- `getGlobalState` of `storage.ts`: on a successful read the stored
record is spread over `DEFAULT_STATE`; a raised storage error is caught
and the default is returned. -/
def getGlobalState : StoreReadResult → GlobalState
  | StoreReadResult.ok stored => mergeState DEFAULT_STATE (stored.getD emptyPartial)
  | StoreReadResult.err => DEFAULT_STATE

/-- `setGlobalState` of `storage.ts`, acting on a store that already
holds the full record `cur`: read–merge–write,
`newState = { ...currentState, ...state }`. -/
def setGlobalState (cur : GlobalState) (state : PartialGlobalState) : GlobalState :=
  mergeState cur state

/-- `updateGlobalFakeDate` of `storage.ts`. -/
def updateGlobalFakeDate (cur : GlobalState) (fakeDate : Option String) : GlobalState :=
  setGlobalState cur
    { emptyPartial with fakeDate := some fakeDate }

/-- `updateGlobalClockState(isClockStopped, tickStartTimestamp?)` of
`storage.ts`.  The optional parameter is `Option (Option String)`:
`none` = argument omitted (`undefined`), `some none` = `null` passed,
`some (some s)` = a string passed.  `now` is the value of `Date.now()`
at the moment of the call.  The falsy test `!tickStartTimestamp`
accepts `undefined`, `null` and the empty string. -/
def updateGlobalClockState (now : Int) (cur : GlobalState)
    (isClockStopped : Bool) (tickStartTimestamp : Option (Option String)) : GlobalState :=
  let passed : Option String := tickStartTimestamp.getD none
  let finalTickStartTimestamp : Option String :=
    if !isClockStopped && !truthyStr passed then some (toString now)
    else if isClockStopped then none
    else passed
  setGlobalState cur
    { emptyPartial with
        isClockStopped := some isClockStopped
        tickStartTimestamp := some finalTickStartTimestamp }

/-- `setGlobalEnabled` of `storage.ts`. -/
def setGlobalEnabled (cur : GlobalState) (enabled : Bool) : GlobalState :=
  setGlobalState cur
    { emptyPartial with isGlobalEnabled := some enabled }

/-! ### Clock Engine (content script `replace_date.ts`) -/

/-- Key `FAKE_DATE_STORAGE_KEY` of the content script. -/
def FAKE_DATE_STORAGE_KEY : String := "timeTravelDate"

/-- Key `TICK_START_STORAGE_KEY` of the content script. -/
def TICK_START_STORAGE_KEY : String := "timeTravelTickStartTimestamp"

/-- Outcome of a `window.sessionStorage.getItem` call: the stored value
(or `null` when the key is absent), or a raised exception (context
storage blocked by sandboxing / privacy settings). -/
inductive ReadResult where
  | val : Option String → ReadResult
  | raise : ReadResult
deriving DecidableEq, Repr

/-- A browsing context's session-storage view, one read outcome per key. -/
structure SessionView where
  read : String → ReadResult

/-- `getFromStorage` of the content script: a raised read is caught and
turned into `null`. -/
def getFromStorage (st : SessionView) (key : String) : Option String :=
  match st.read key with
  | ReadResult.val v => v
  | ReadResult.raise => none

/-- `getTickStartTimestamp` of the content script: `null` when the key is
absent, otherwise `Number.parseInt` of the stored string (which never
throws, so the surrounding `catch` returning `null` is unreachable;
a non-numeric string yields `NaN`, i.e. `some JSNum.nan`, not `none`). -/
def getTickStartTimestamp (st : SessionView) : Option JSNum :=
  match getFromStorage st TICK_START_STORAGE_KEY with
  | none => none
  | some s => some (jsParseInt s)

/-- `fakeNowDate` of the content script.  `parse` models the host
primitive `new OriginalDate(string)` returning the parsed millisecond
timestamp (`NaN` on an unparseable string); `realNow` is the value the
genuine clock (`OriginalDate.now()` / `new OriginalDate()`) holds during
the call. -/
def fakeNowDate (parse : String → JSNum) (realNow : Int) (st : SessionView) : JSNum :=
  match getFromStorage st FAKE_DATE_STORAGE_KEY with
  | some fakeDate =>
      let fakeDateObject := parse fakeDate
      match getTickStartTimestamp st with
      | none => fakeDateObject
      | some startTimestamp =>
          let elapsed := jsSub (JSNum.num realNow) startTimestamp
          jsAdd fakeDateObject elapsed
  | none => JSNum.num realNow

/-- The `FakeDate` constructor of the content script, called with `new`:
a zero-argument call substitutes `[fakeNowDate()]` for the argument list,
every other argument list is handed to the original constructor
unchanged.  `origCtor` models the host primitive
`new OriginalDate(...args)` (argument values embedded as `JSNum`). -/
def FakeDate (origCtor : List JSNum → JSNum) (parse : String → JSNum)
    (realNow : Int) (st : SessionView) (args : List JSNum) : JSNum :=
  let args := if args.isEmpty then [fakeNowDate parse realNow st] else args
  origCtor args

/-- The `format` replacement of the `Intl.DateTimeFormat` wrapper:
`this._originalObject.format(date ?? fakeNowDate())`.  `origFormat`
models the captured original formatter applied to a date value. -/
def formatReplacement (origFormat : JSNum → String) (parse : String → JSNum)
    (realNow : Int) (st : SessionView) (date : Option JSNum) : String :=
  origFormat (date.getD (fakeNowDate parse realNow st))

/-- The `formatToParts` replacement, identical in structure to `format`
(`this._originalObject.formatToParts(date ?? fakeNowDate())`); parts
lists are abstracted to an opaque result type via `origFormat`. -/
def formatToPartsReplacement (origFormat : JSNum → List String) (parse : String → JSNum)
    (realNow : Int) (st : SessionView) (date : Option JSNum) : List String :=
  origFormat (date.getD (fakeNowDate parse realNow st))

/-! ### Propagation Coordinator (background `worker.ts`) -/

/-- Model of the JS string primitive `s.startsWith(p)`. -/
def strStartsWith (s p : String) : Bool :=
  p.data.isPrefixOf s.data

/-- `isRestrictedUrl` of the worker. -/
def isRestrictedUrl (url : String) : Bool :=
  ["chrome://", "chrome-extension://", "moz-extension://", "about:",
   "data:", "file://", "view-source:"].any (fun protocol => strStartsWith url protocol)

/-- `isAllowedWebsite` of the worker; `allowed` is the pattern list
imported from `config/allowedUrls.js`. -/
def isAllowedWebsite (allowed : List String) (url : String) : Bool :=
  allowed.any (fun pattern => strStartsWith url pattern)

/-- The per-tab session store seeded by the coordinator (the two keys
the Clock Engine reads). -/
structure SessionStore where
  timeTravelDate : Option String
  timeTravelTickStartTimestamp : Option String
deriving DecidableEq, Repr

/-- The function injected by `applyGlobalStateToTab` into the page's
MAIN world: seeds the fake-time keys when the global state is enabled
with a (truthy) fake date, otherwise removes both keys. -/
def injectedSeed (state : GlobalState) : SessionStore :=
  if state.isGlobalEnabled && truthyStr state.fakeDate then
    { timeTravelDate := state.fakeDate
      timeTravelTickStartTimestamp :=
        if truthyStr state.tickStartTimestamp then state.tickStartTimestamp else none }
  else
    { timeTravelDate := none, timeTravelTickStartTimestamp := none }

/-- A tab known to the browser: its URL (`none` when `chrome.tabs.get`
fails or the URL is not yet available) and its session storage. -/
structure TabState where
  url : Option String
  session : SessionStore
deriving DecidableEq, Repr

/-- The coordinator's state: the open tabs, the `reloadedTabs` guard set,
and the persisted global state (the worker re-reads it via
`getGlobalState()` at the start of every evaluation). -/
structure CoordState where
  tabs : List (Nat × TabState)
  reloadedTabs : List Nat
  globalState : GlobalState
deriving DecidableEq, Repr

/-- What a single evaluation of `applyGlobalStateToTab` did to a tab. -/
inductive TabAction where
  | skipped : TabAction
  | reloaded : TabAction
  | seeded : TabAction
deriving DecidableEq, Repr

/-- Replace the session store of tab `tabId`. -/
def setTabSession (tabs : List (Nat × TabState)) (tabId : Nat) (s : SessionStore) :
    List (Nat × TabState) :=
  tabs.map (fun p => if p.1 = tabId then (p.1, { p.2 with session := s }) else p)

/-- `applyGlobalStateToTab` of the worker: skip unavailable, restricted
or non-allowed URLs; if the global state is enabled with a truthy fake
date and the tab is not yet in `reloadedTabs`, mark it and force a
reload (returning early); otherwise inject `injectedSeed` into the
tab's session storage. -/
def applyGlobalStateToTab (allowed : List String) (cs : CoordState) (tabId : Nat) :
    CoordState × TabAction :=
  let gs := cs.globalState
  match (cs.tabs.find? (fun p => p.1 = tabId)).map Prod.snd with
  | none => (cs, TabAction.skipped)
  | some tab =>
      match tab.url with
      | none => (cs, TabAction.skipped)
      | some url =>
          if isRestrictedUrl url then (cs, TabAction.skipped)
          else if !isAllowedWebsite allowed url then (cs, TabAction.skipped)
          else if gs.isGlobalEnabled && truthyStr gs.fakeDate
                  && !cs.reloadedTabs.contains tabId then
            ({ cs with reloadedTabs := tabId :: cs.reloadedTabs }, TabAction.reloaded)
          else
            ({ cs with tabs := setTabSession cs.tabs tabId (injectedSeed gs) },
             TabAction.seeded)

/-- The loop body of `applyGlobalStateToAllTabs`: evaluate each listed
tab in order, threading the coordinator state and collecting each tab's
action. -/
def applyToTabList (allowed : List String) (cs : CoordState) :
    List Nat → CoordState × List (Nat × TabAction)
  | [] => (cs, [])
  | tabId :: rest =>
      let r := applyGlobalStateToTab allowed cs tabId
      let rs := applyToTabList allowed r.1 rest
      (rs.1, (tabId, r.2) :: rs.2)

/-- `applyGlobalStateToAllTabs` of the worker: returns immediately when
the global state is not enabled (`Global mode is disabled`); otherwise
iterates over all tabs whose URL is present, unrestricted and allowed. -/
def applyGlobalStateToAllTabs (allowed : List String) (cs : CoordState) :
    CoordState × List (Nat × TabAction) :=
  if !cs.globalState.isGlobalEnabled then (cs, [])
  else
    applyToTabList allowed cs
      ((cs.tabs.filter (fun p =>
          match p.2.url with
          | some url => !isRestrictedUrl url && isAllowedWebsite allowed url
          | none => false)).map Prod.fst)

/-- The `chrome.storage.onChanged` listener of the worker, for a change
of `timeTravelGlobalState`: clear the `reloadedTabs` guard for all tabs,
then re-apply the global state to all tabs. -/
def onStorageChanged (allowed : List String) (cs : CoordState) :
    CoordState × List (Nat × TabAction) :=
  applyGlobalStateToAllTabs allowed { cs with reloadedTabs := [] }

/-- Count of forced reloads of tab `tabId` in an action log. -/
def reloadCount (acts : List (Nat × TabAction)) (tabId : Nat) : Nat :=
  (acts.filter (fun a => a.1 = tabId && a.2 = TabAction.reloaded)).length

/-- The `updateGlobalStateFromAPI` message handler of the worker:
writes `isGlobalEnabled: true`, the supplied `fakeDate`,
`isClockStopped: message.isClockStopped ?? true`, and a tick anchor that
is `null` when `message.isClockStopped` is truthy and
`Date.now().toString()` otherwise. -/
def updateGlobalStateFromAPI (now : Int) (cur : GlobalState)
    (fakeDate : Option String) (isClockStopped : Option Bool) : GlobalState :=
  let tickStartTimestamp : Option String :=
    if isClockStopped = some true then none else some (toString now)
  setGlobalState cur
    { isGlobalEnabled := some true
      fakeDate := some fakeDate
      tickStartTimestamp := some tickStartTimestamp
      isClockStopped := some (isClockStopped.getD true) }

/-! ### API bridge (`src/scripts/api_bridge.ts`) -/

/-- The `{success, error?}` shape of an API bridge response. -/
structure BridgeResponse where
  success : Bool
  error : Option String
deriving DecidableEq, Repr

/-- `handleUpdateGlobalState` of the API bridge, composed with the
worker's `updateGlobalStateFromAPI` handler that its
`chrome.runtime.sendMessage` reaches: validate that `fakeDate` is a
truthy string and that it parses as a date (`jsDateValid` models the
host test `!isNaN(new Date(s).getTime())`); on validation failure
respond with an error and leave the store untouched; otherwise forward
`{fakeDate, isClockStopped: data.isClockStopped ?? true}` to the
worker. -/
def handleUpdateGlobalState (jsDateValid : String → Bool) (now : Int)
    (cur : GlobalState) (fakeDate : Option String) (isClockStopped : Option Bool) :
    BridgeResponse × GlobalState :=
  if !truthyStr fakeDate then
    ({ success := false, error := some "fakeDate is required and must be a string" }, cur)
  else if !jsDateValid (fakeDate.getD "") then
    ({ success := false, error := some "Invalid date format" }, cur)
  else
    ({ success := true, error := none },
     updateGlobalStateFromAPI now cur fakeDate (some (isClockStopped.getD true)))

/-- `handleDisableTimeTravel` of the API bridge, composed with the
worker handler its message reaches: sends
`{msg: updateGlobalStateFromAPI, fakeDate: null, isClockStopped: true}`. -/
def handleDisableTimeTravel (now : Int) (cur : GlobalState) : GlobalState :=
  updateGlobalStateFromAPI now cur none (some true)

/-! ### Popup-side global toggle (`setGlobalFakeTime`) -/

/-- `setGlobalFakeTime(enabled, fakeDate?, isClockStopped?)` of the
popup helper module, acting on the store value `cur`.  `pd` models the
`parseDate` helper of `util/common` (not part of the embedded sources):
`none` on an unparseable string, otherwise the parsed date value
(carried as a string, as it is stored).  The second component of the
result is the thrown error message, if any; a throw happens before any
store write, so the state component is then `cur` unchanged.  The
enable branch performs three writes in order: `updateGlobalFakeDate`,
`updateGlobalClockState(isClockStopped ?? true)` (tick argument
omitted), `setGlobalEnabled(true)`; the disable branch performs
`setGlobalEnabled(false)`, `updateGlobalFakeDate(null)`,
`updateGlobalClockState(true, null)`. -/
def setGlobalFakeTime (pd : String → Option String) (now : Int) (cur : GlobalState)
    (enabled : Bool) (fakeDate : Option String) (isClockStopped : Option Bool) :
    GlobalState × Option String :=
  if enabled && truthyStr fakeDate then
    match pd (fakeDate.getD "") with
    | none => (cur, some "Invalid date format!")
    | some parsedDate =>
        let s1 := updateGlobalFakeDate cur (some parsedDate)
        let s2 := updateGlobalClockState now s1 (isClockStopped.getD true) none
        let s3 := setGlobalEnabled s2 true
        (s3, none)
  else
    let s1 := setGlobalEnabled cur false
    let s2 := updateGlobalFakeDate s1 none
    let s3 := updateGlobalClockState now s2 true (some none)
    (s3, none)

/-! ### Spec reference model -/

/-- Modelled from the spec: the seeded part of a `ContextState` as the
spec's `VirtualInstant` reference definition uses it — the fake baseline
instant and the optional tick anchor (`None` iff the clock is stopped). -/
structure SpecCtx where
  fakeInstant : Int
  tickAnchor : Option Int
deriving DecidableEq, Repr

/-- Modelled from the spec: the `VirtualInstant(real_now)` reference
definition of §3 — `real_now` when the context state is absent or
disabled; `fakeInstant` when the clock is stopped; otherwise
`fakeInstant + (real_now - tickAnchor)`. -/
def VirtualInstant (ctx : Option SpecCtx) (realNow : Int) : Int :=
  match ctx with
  | none => realNow
  | some c =>
      match c.tickAnchor with
      | none => c.fakeInstant
      | some anchor => c.fakeInstant + (realNow - anchor)

/-! ### Concrete test fixtures -/

/-- An allowed-host list with one entry, for concrete scenarios. -/
def demoAllowed : List String := ["https://example.com"]

/-- The empty per-tab session store. -/
def emptySession : SessionStore :=
  { timeTravelDate := none, timeTravelTickStartTimestamp := none }

/-- A session store already seeded with a stopped fake instant. -/
def seededSession : SessionStore :=
  { timeTravelDate := some "2023-12-25T10:30:00.000Z",
    timeTravelTickStartTimestamp := none }

/-- A tab on an allowed, unrestricted URL with session store `sess`. -/
def demoTab (sess : SessionStore) : TabState :=
  { url := some "https://example.com/", session := sess }

/-- A fully enabled global state with a stopped fake instant. -/
def enabledGlobal : GlobalState :=
  { isGlobalEnabled := true, fakeDate := some "2023-12-25T10:30:00.000Z",
    tickStartTimestamp := none, isClockStopped := true }

/-- The fully disabled global state. -/
def disabledGlobal : GlobalState :=
  { isGlobalEnabled := false, fakeDate := none,
    tickStartTimestamp := none, isClockStopped := true }

/-- The Clock Engine's session view of a coordinator-seeded tab session
store (reads succeed and return the stored keys). -/
def sessionViewOf (s : SessionStore) : SessionView :=
  { read := fun k =>
      if k = FAKE_DATE_STORAGE_KEY then ReadResult.val s.timeTravelDate
      else if k = TICK_START_STORAGE_KEY then ReadResult.val s.timeTravelTickStartTimestamp
      else ReadResult.val none }

/-! ### Theorems -/

/-- C7: the State Store read returns the documented default
(`enabled=false, fakeInstant=None, clockStopped=true, tickAnchor=None`)
when no record is persisted, and returns that same default instead of
raising when the underlying durable storage read raises. -/
theorem getGlobalState_default_on_absent_or_error :
    getGlobalState (StoreReadResult.ok none) = DEFAULT_STATE ∧
    getGlobalState StoreReadResult.err = DEFAULT_STATE ∧
    DEFAULT_STATE =
      { isGlobalEnabled := false, fakeDate := none,
        tickStartTimestamp := none, isClockStopped := true } :=
  ⟨rfl, rfl, rfl⟩

/-- C9: if the session-storage read of the fake-date key raises (context
storage blocked), the Clock Engine does not throw and `fakeNowDate`
returns the genuine current instant. -/
theorem fakeNowDate_falls_back_to_real_time_on_blocked_storage
    (parse : String → JSNum) (realNow : Int) (st : SessionView)
    (h : st.read FAKE_DATE_STORAGE_KEY = ReadResult.raise) :
    fakeNowDate parse realNow st = JSNum.num realNow := by
  simp [fakeNowDate, getFromStorage, h]

/-- C9 witness: a concrete context whose fake-date read raises yields
the real instant. -/
theorem fakeNowDate_falls_back_to_real_time_on_blocked_storage_witness :
    fakeNowDate (fun _ => JSNum.num 0) 1234
      ⟨fun _ => ReadResult.raise⟩ = JSNum.num 1234 :=
  fakeNowDate_falls_back_to_real_time_on_blocked_storage
    (fun _ => JSNum.num 0) 1234 ⟨fun _ => ReadResult.raise⟩ rfl

/-- C10: with a fake date seeded and a stored tick-anchor string that
`Number.parseInt` cannot parse, `getTickStartTimestamp` returns `NaN`
(`some JSNum.nan`) rather than `null` (`none`) — `parseInt` never
throws, so its `catch` branch is unreachable — and `fakeNowDate`
computes with the `NaN` and returns an invalid instant (`NaN`) instead
of the frozen fake instant or the real time. -/
theorem nonnumeric_tick_anchor_produces_invalid_instant
    (parse : String → JSNum) (realNow : Int) (st : SessionView) (fd s : String)
    (hfd : st.read FAKE_DATE_STORAGE_KEY = ReadResult.val (some fd))
    (hs : st.read TICK_START_STORAGE_KEY = ReadResult.val (some s))
    (hnan : jsParseInt s = JSNum.nan) :
    getTickStartTimestamp st = some JSNum.nan ∧
    getTickStartTimestamp st ≠ none ∧
    fakeNowDate parse realNow st = JSNum.nan := by
  have htick : getTickStartTimestamp st = some JSNum.nan := by
    simp [getTickStartTimestamp, getFromStorage, hs, hnan]
  refine ⟨htick, by simp [htick], ?_⟩
  simp only [fakeNowDate, getFromStorage, hfd, htick]
  cases parse fd <;> simp [jsAdd, jsSub]

/-- C10 witness: the anchor string `"abc"` yields `NaN` and an invalid
instant in a concrete seeded context. -/
theorem nonnumeric_tick_anchor_produces_invalid_instant_witness :
    getTickStartTimestamp
      ⟨fun k => if k = TICK_START_STORAGE_KEY then
          ReadResult.val (some "abc") else ReadResult.val (some "2023-12-25")⟩ =
        some JSNum.nan ∧
    fakeNowDate (fun _ => JSNum.num 500) 1000
      ⟨fun k => if k = TICK_START_STORAGE_KEY then
          ReadResult.val (some "abc") else ReadResult.val (some "2023-12-25")⟩ =
        JSNum.nan := by
  have h := nonnumeric_tick_anchor_produces_invalid_instant
    (fun _ => JSNum.num 500) 1000
    ⟨fun k => if k = TICK_START_STORAGE_KEY then
        ReadResult.val (some "abc") else ReadResult.val (some "2023-12-25")⟩
    "2023-12-25" "abc" (by decide) (by decide) (by decide)
  exact ⟨h.1, h.2.2⟩

/-- C8: only the implicit current-time path is virtualized — the
replaced date constructor applied to any non-empty argument list gives
exactly the original constructor's result on those arguments, and the
calendar-formatting replacement applied to an explicit date argument
formats that argument, not the virtual instant. -/
theorem explicit_arguments_are_never_faked
    (origCtor : List JSNum → JSNum) (origFormat : JSNum → String)
    (parse : String → JSNum) (realNow : Int) (st : SessionView)
    (args : List JSNum) (d : JSNum) :
    (args ≠ [] → FakeDate origCtor parse realNow st args = origCtor args) ∧
    formatReplacement origFormat parse realNow st (some d) = origFormat d := by
  constructor
  · intro h
    cases args with
    | nil => exact absurd rfl h
    | cons a rest => rfl
  · rfl

/-- C8 witness: a concrete two-argument construction passes through the
original constructor unchanged. -/
theorem explicit_arguments_are_never_faked_witness :
    FakeDate (fun l => l.headD JSNum.nan) (fun _ => JSNum.num 0) 0
      ⟨fun _ => ReadResult.val none⟩ [JSNum.num 7, JSNum.num 8] =
      (fun l => List.headD l JSNum.nan) [JSNum.num 7, JSNum.num 8] :=
  (explicit_arguments_are_never_faked (fun l => l.headD JSNum.nan)
    (fun _ => "") (fun _ => JSNum.num 0) 0 ⟨fun _ => ReadResult.val none⟩
    [JSNum.num 7, JSNum.num 8] JSNum.nan).1 (by decide)

/-- C1: for every context and every real instant, `fakeNowDate` equals
the spec's `VirtualInstant` reference definition — the real instant when
no fake instant is seeded; the fake instant, independently of the real
instant, when the tick anchor is absent (clock stopped); and
`fakeInstant + (real_now - tickAnchor)` when the tick anchor is present
(clock running). -/
theorem fakeNowDate_matches_VirtualInstant
    (parse : String → JSNum) (realNow : Int) (st : SessionView) :
    (getFromStorage st FAKE_DATE_STORAGE_KEY = none →
      fakeNowDate parse realNow st = JSNum.num (VirtualInstant none realNow)) ∧
    (∀ fd f, getFromStorage st FAKE_DATE_STORAGE_KEY = some fd →
      parse fd = JSNum.num f →
      (getTickStartTimestamp st = none →
        fakeNowDate parse realNow st =
          JSNum.num (VirtualInstant
            (some { fakeInstant := f, tickAnchor := none }) realNow)) ∧
      (∀ anchor, getTickStartTimestamp st = some (JSNum.num anchor) →
        fakeNowDate parse realNow st =
          JSNum.num (VirtualInstant
            (some { fakeInstant := f, tickAnchor := some anchor }) realNow))) := by
  refine ⟨fun h => ?_, fun fd f hfd hf => ⟨fun ht => ?_, fun anchor ha => ?_⟩⟩
  · simp [fakeNowDate, VirtualInstant, h]
  · simp [fakeNowDate, VirtualInstant, hfd, hf, ht]
  · simp [fakeNowDate, VirtualInstant, hfd, hf, ha, jsAdd, jsSub]

/-- C1 witness: a concrete running context (fake baseline 500, anchor
100, real instant 1000) reads 1400, exactly `VirtualInstant`. -/
theorem fakeNowDate_matches_VirtualInstant_witness :
    fakeNowDate (fun _ => JSNum.num 500) 1000
      ⟨fun k => if k = FAKE_DATE_STORAGE_KEY then
          ReadResult.val (some "d") else ReadResult.val (some "100")⟩ =
      JSNum.num (VirtualInstant
        (some { fakeInstant := 500, tickAnchor := some 100 }) 1000) :=
  ((fakeNowDate_matches_VirtualInstant (fun _ => JSNum.num 500) 1000
      ⟨fun k => if k = FAKE_DATE_STORAGE_KEY then
          ReadResult.val (some "d") else ReadResult.val (some "100")⟩).2
    "d" 500 (by decide) (by decide)).2 100 (by decide)

/-- C3: the clock-state write of the State Store restores the invariant
`clockStopped = true ↔ tickAnchor = none` after every call, whatever was
supplied: setting `clockStopped = false` without supplying an anchor
synthesizes `tickAnchor = now`, and setting `clockStopped = true` clears
the anchor regardless of the value passed. -/
theorem updateGlobalClockState_invariant
    (now : Int) (cur : GlobalState) (stopped : Bool)
    (tick : Option (Option String)) :
    ((updateGlobalClockState now cur stopped tick).isClockStopped = true ↔
      (updateGlobalClockState now cur stopped tick).tickStartTimestamp = none) ∧
    (stopped = false → tick = none →
      (updateGlobalClockState now cur stopped tick).tickStartTimestamp =
        some (toString now)) ∧
    (stopped = true →
      (updateGlobalClockState now cur stopped tick).tickStartTimestamp = none) := by
  cases stopped with
  | true =>
      simp [updateGlobalClockState, setGlobalState, mergeState, emptyPartial]
  | false =>
      refine ⟨?_, ?_, by simp⟩
      · rcases tick with _ | p
        · simp [updateGlobalClockState, setGlobalState, mergeState,
            emptyPartial, truthyStr]
        · rcases p with _ | s
          · simp [updateGlobalClockState, setGlobalState, mergeState,
              emptyPartial, truthyStr]
          · by_cases hs : s = "" <;>
              simp [updateGlobalClockState, setGlobalState, mergeState,
                emptyPartial, truthyStr, hs]
      · intro _ ht
        simp [updateGlobalClockState, setGlobalState, mergeState,
          emptyPartial, truthyStr, ht]

/-- C3 witness: a concrete call setting `clockStopped = false` with the
anchor argument omitted synthesizes the anchor from `now = 42`, and the
invariant holds on the result. -/
theorem updateGlobalClockState_invariant_witness :
    (updateGlobalClockState 42 DEFAULT_STATE false none).tickStartTimestamp =
      some (toString (42 : Int)) :=
  (updateGlobalClockState_invariant 42 DEFAULT_STATE false none).2.1 rfl rfl

/-- C6: a `SetGlobalConfig` request whose fake instant does not parse as
a valid calendar date/time is answered with an error and performs no
mutation — the API bridge path returns its error response with the store
unchanged, and the popup path throws its error with the store unchanged,
so a subsequent read returns exactly the prior state. -/
theorem invalid_fake_instant_is_rejected_without_mutation
    (jsDateValid : String → Bool) (pd : String → Option String)
    (now : Int) (cur : GlobalState) (s : String) (stopped : Option Bool) :
    (s ≠ "" → jsDateValid s = false →
      handleUpdateGlobalState jsDateValid now cur (some s) stopped =
        ({ success := false, error := some "Invalid date format" }, cur)) ∧
    (s ≠ "" → pd s = none →
      setGlobalFakeTime pd now cur true (some s) stopped =
        (cur, some "Invalid date format!")) := by
  constructor
  · intro hs hv
    simp [handleUpdateGlobalState, truthyStr, hs, hv]
  · intro hs hp
    simp [setGlobalFakeTime, truthyStr, hs, hp]

/-- C6 witness: the request `fakeInstant = "not-a-date"` is rejected on
both paths and leaves a concrete prior state untouched. -/
theorem invalid_fake_instant_is_rejected_without_mutation_witness :
    handleUpdateGlobalState (fun _ => false) 1000
      { isGlobalEnabled := true, fakeDate := some "2020-01-01",
        tickStartTimestamp := none, isClockStopped := true }
      (some "not-a-date") (some true) =
      ({ success := false, error := some "Invalid date format" },
       { isGlobalEnabled := true, fakeDate := some "2020-01-01",
         tickStartTimestamp := none, isClockStopped := true }) ∧
    setGlobalFakeTime (fun _ => none) 1000
      { isGlobalEnabled := true, fakeDate := some "2020-01-01",
        tickStartTimestamp := none, isClockStopped := true }
      true (some "not-a-date") (some true) =
      ({ isGlobalEnabled := true, fakeDate := some "2020-01-01",
         tickStartTimestamp := none, isClockStopped := true },
       some "Invalid date format!") := by
  have h := invalid_fake_instant_is_rejected_without_mutation
    (fun _ => false) (fun _ => none) 1000
    { isGlobalEnabled := true, fakeDate := some "2020-01-01",
      tickStartTimestamp := none, isClockStopped := true }
    "not-a-date" (some true)
  exact ⟨h.1 (by decide) rfl, h.2 (by decide) rfl⟩

/-- C4 counterexample: the external-API disable path
(`handleDisableTimeTravel`, which sends `fakeDate: null` to the worker's
`updateGlobalStateFromAPI` handler) completes a write after which
`fakeDate = none` while `isGlobalEnabled = true`, so the invariant
`fakeInstant = None ↔ enabled = false` does not hold after every
completed write path. -/
theorem api_disable_write_violates_enabled_invariant :
    (handleDisableTimeTravel 1000
      { isGlobalEnabled := true, fakeDate := some "2023-12-25T10:30:00.000Z",
        tickStartTimestamp := none, isClockStopped := true }).fakeDate = none ∧
    (handleDisableTimeTravel 1000
      { isGlobalEnabled := true, fakeDate := some "2023-12-25T10:30:00.000Z",
        tickStartTimestamp := none, isClockStopped := true }).isGlobalEnabled = true ∧
    ¬((handleDisableTimeTravel 1000
      { isGlobalEnabled := true, fakeDate := some "2023-12-25T10:30:00.000Z",
        tickStartTimestamp := none, isClockStopped := true }).fakeDate = none ↔
      (handleDisableTimeTravel 1000
      { isGlobalEnabled := true, fakeDate := some "2023-12-25T10:30:00.000Z",
        tickStartTimestamp := none, isClockStopped := true }).isGlobalEnabled = false) := by
  decide

/-- C4 (amended): the popup enable/disable path and the external-API
update path preserve the invariant `fakeInstant = None ↔ enabled =
false` after every completed (non-throwing) write, but the external-API
disable path violates it, leaving `enabled = true` with
`fakeInstant = None`. -/
theorem global_writes_and_the_enabled_invariant
    (pd : String → Option String) (now : Int) (cur : GlobalState)
    (enabled : Bool) (fd : Option String) (stopped : Option Bool) (s : String) :
    ((setGlobalFakeTime pd now cur enabled fd stopped).2 = none →
      ((setGlobalFakeTime pd now cur enabled fd stopped).1.fakeDate = none ↔
       (setGlobalFakeTime pd now cur enabled fd stopped).1.isGlobalEnabled = false)) ∧
    ((updateGlobalStateFromAPI now cur (some s) stopped).fakeDate = none ↔
     (updateGlobalStateFromAPI now cur (some s) stopped).isGlobalEnabled = false) ∧
    ((handleDisableTimeTravel now cur).fakeDate = none ∧
     (handleDisableTimeTravel now cur).isGlobalEnabled = true) := by
  refine ⟨?_, ?_, ?_⟩
  · unfold setGlobalFakeTime
    split
    · rcases hpd : pd (fd.getD "") with _ | parsedDate
      · intro hok
        simp [hpd] at hok
      · intro _
        simp [hpd, setGlobalEnabled, updateGlobalFakeDate,
          updateGlobalClockState, setGlobalState, mergeState, emptyPartial]
    · intro _
      simp [setGlobalEnabled, updateGlobalFakeDate, updateGlobalClockState,
        setGlobalState, mergeState, emptyPartial, truthyStr]
  · simp [updateGlobalStateFromAPI, setGlobalState, mergeState]
  · simp [handleDisableTimeTravel, updateGlobalStateFromAPI,
      setGlobalState, mergeState]

/-- C4 witness: a concrete successful popup enable preserves the
invariant. -/
theorem global_writes_and_the_enabled_invariant_witness :
    ((setGlobalFakeTime (fun d => some d) 1000 DEFAULT_STATE true
        (some "2023-12-25T10:30:00.000Z") (some true)).1.fakeDate = none ↔
     (setGlobalFakeTime (fun d => some d) 1000 DEFAULT_STATE true
        (some "2023-12-25T10:30:00.000Z") (some true)).1.isGlobalEnabled = false) :=
  (global_writes_and_the_enabled_invariant (fun d => some d) 1000 DEFAULT_STATE
    true (some "2023-12-25T10:30:00.000Z") (some true) "x").1 (by decide)

/-- Helper: a single tab evaluation either leaves the `reloadedTabs`
guard unchanged or pushes exactly the evaluated tab onto it. -/
theorem applyGlobalStateToTab_guard_shape
    (allowed : List String) (cs : CoordState) (tabId : Nat) :
    (applyGlobalStateToTab allowed cs tabId).1.reloadedTabs = cs.reloadedTabs ∨
    (applyGlobalStateToTab allowed cs tabId).1.reloadedTabs = tabId :: cs.reloadedTabs := by
  simp only [applyGlobalStateToTab]
  split
  · exact Or.inl rfl
  split
  · exact Or.inl rfl
  split
  · exact Or.inl rfl
  split
  · exact Or.inl rfl
  split
  · exact Or.inr rfl
  · exact Or.inl rfl

/-- Helper: membership in the reload guard is preserved by any tab
evaluation. -/
theorem applyGlobalStateToTab_guard_mono
    (allowed : List String) (cs : CoordState) (tabId t : Nat)
    (h : t ∈ cs.reloadedTabs) :
    t ∈ (applyGlobalStateToTab allowed cs tabId).1.reloadedTabs := by
  rcases applyGlobalStateToTab_guard_shape allowed cs tabId with hs | hs <;> rw [hs]
  · exact h
  · exact List.mem_cons_of_mem _ h

/-- Helper: a forced reload marks the evaluated tab in the guard. -/
theorem applyGlobalStateToTab_reload_marks
    (allowed : List String) (cs : CoordState) (tabId : Nat) :
    (applyGlobalStateToTab allowed cs tabId).2 = TabAction.reloaded →
    tabId ∈ (applyGlobalStateToTab allowed cs tabId).1.reloadedTabs := by
  simp only [applyGlobalStateToTab]
  split
  · intro h; cases h
  split
  · intro h; cases h
  split
  · intro h; cases h
  split
  · intro h; cases h
  split
  · intro _; exact List.mem_cons_self _ _
  · intro h; cases h

/-- Helper: a tab already marked in the guard is never reloaded by an
evaluation. -/
theorem applyGlobalStateToTab_marked_no_reload
    (allowed : List String) (cs : CoordState) (tabId : Nat)
    (h : tabId ∈ cs.reloadedTabs) :
    (applyGlobalStateToTab allowed cs tabId).2 ≠ TabAction.reloaded := by
  simp only [applyGlobalStateToTab]
  split
  · simp
  split
  · simp
  split
  · simp
  split
  · simp
  split
  · rename_i hc
    simp at hc
    exact absurd h hc.2
  · simp

/-- Helper: `reloadCount` over a cons cell. -/
theorem reloadCount_cons (i : Nat) (a : TabAction)
    (acts : List (Nat × TabAction)) (t : Nat) :
    reloadCount ((i, a) :: acts) t =
      reloadCount acts t + (if i = t ∧ a = TabAction.reloaded then 1 else 0) := by
  by_cases h1 : i = t <;> by_cases h2 : a = TabAction.reloaded <;>
    simp [reloadCount, List.filter_cons, h1, h2]

/-- Helper: a tab already marked in the guard is reloaded zero times by
an evaluation pass over any tab list. -/
theorem applyToTabList_no_reload_of_marked
    (allowed : List String) (ids : List Nat) (cs : CoordState) (t : Nat)
    (h : t ∈ cs.reloadedTabs) :
    reloadCount (applyToTabList allowed cs ids).2 t = 0 := by
  induction ids generalizing cs with
  | nil => rfl
  | cons i rest ih =>
    simp only [applyToTabList]
    rw [reloadCount_cons]
    have hmono := applyGlobalStateToTab_guard_mono allowed cs i t h
    have hif : ¬(i = t ∧ (applyGlobalStateToTab allowed cs i).2 = TabAction.reloaded) := by
      rintro ⟨hit, hr⟩
      have hmem : i ∈ cs.reloadedTabs := by rw [hit]; exact h
      exact applyGlobalStateToTab_marked_no_reload allowed cs i hmem hr
    simp [hif, ih _ hmono]

/-- Helper: one evaluation pass over a tab list reloads each tab at
most once. -/
theorem applyToTabList_reload_le_one
    (allowed : List String) (ids : List Nat) (cs : CoordState) (t : Nat) :
    reloadCount (applyToTabList allowed cs ids).2 t ≤ 1 := by
  induction ids generalizing cs with
  | nil => exact Nat.zero_le 1
  | cons i rest ih =>
    simp only [applyToTabList]
    rw [reloadCount_cons]
    by_cases hc : i = t ∧ (applyGlobalStateToTab allowed cs i).2 = TabAction.reloaded
    · obtain ⟨hit, hr⟩ := hc
      subst hit
      have hmark := applyGlobalStateToTab_reload_marks allowed cs i hr
      have hz := applyToTabList_no_reload_of_marked allowed rest
        (applyGlobalStateToTab allowed cs i).1 i hmark
      simp [hr, hz]
    · simp only [hc, if_false, Nat.add_zero]
      exact ih _


/-- C2 counterexample: with the global state enabled and one allowed
open tab, two consecutive `timeTravelGlobalState` storage changes (two
`SetGlobalConfig` writes in quick succession) force the same tab to
reload twice, with no navigation event in between — the
`chrome.storage.onChanged` listener clears `reloadedTabs` on every
change, so the tab is not reloaded at most once per navigation
lifetime. -/
theorem two_config_writes_force_two_reloads :
    reloadCount
      ((onStorageChanged demoAllowed
          { tabs := [(1, demoTab emptySession)], reloadedTabs := [],
            globalState := enabledGlobal }).2 ++
        (onStorageChanged demoAllowed
          (onStorageChanged demoAllowed
            { tabs := [(1, demoTab emptySession)], reloadedTabs := [],
              globalState := enabledGlobal }).1).2) 1 = 2 ∧
    ¬(reloadCount
      ((onStorageChanged demoAllowed
          { tabs := [(1, demoTab emptySession)], reloadedTabs := [],
            globalState := enabledGlobal }).2 ++
        (onStorageChanged demoAllowed
          (onStorageChanged demoAllowed
            { tabs := [(1, demoTab emptySession)], reloadedTabs := [],
              globalState := enabledGlobal }).1).2) 1 ≤ 1) := by
  decide

/-- C2 (amended): within the evaluation pass triggered by a single
global-state change, each tab is forcibly reloaded at most once — a
reload marks the tab in `reloadedTabs`, and a marked tab is never
reloaded again by an evaluation — but every storage change clears the
guard first, so each further `SetGlobalConfig` write can force one more
reload per tab. -/
theorem forced_reload_at_most_once_per_evaluation_pass
    (allowed : List String) (cs : CoordState) (tabId : Nat) :
    reloadCount (onStorageChanged allowed cs).2 tabId ≤ 1 ∧
    ((applyGlobalStateToTab allowed cs tabId).2 = TabAction.reloaded →
      tabId ∈ (applyGlobalStateToTab allowed cs tabId).1.reloadedTabs) ∧
    (tabId ∈ cs.reloadedTabs →
      (applyGlobalStateToTab allowed cs tabId).2 ≠ TabAction.reloaded) := by
  refine ⟨?_, applyGlobalStateToTab_reload_marks allowed cs tabId,
    fun h => applyGlobalStateToTab_marked_no_reload allowed cs tabId h⟩
  simp only [onStorageChanged, applyGlobalStateToAllTabs]
  split
  · simp [reloadCount]
  · exact applyToTabList_reload_le_one allowed _ _ tabId

/-- C2 witness: in a concrete state whose guard already contains tab 1,
an evaluation of tab 1 does not reload it. -/
theorem forced_reload_at_most_once_per_evaluation_pass_witness :
    (applyGlobalStateToTab demoAllowed
      { tabs := [(1, demoTab emptySession)], reloadedTabs := [1],
        globalState := enabledGlobal } 1).2 ≠ TabAction.reloaded :=
  (forced_reload_at_most_once_per_evaluation_pass demoAllowed
    { tabs := [(1, demoTab emptySession)], reloadedTabs := [1],
      globalState := enabledGlobal } 1).2.2 (by decide)

/-- Helper: after replacing tab `tabId`'s session, looking that tab up
yields the new session (whenever the tab exists). -/
theorem setTabSession_find_session
    (tabs : List (Nat × TabState)) (tabId : Nat) (s : SessionStore)
    (h : ((tabs.find? (fun p => p.1 = tabId)).isSome : Bool) = true) :
    ((setTabSession tabs tabId s).find? (fun p => p.1 = tabId)).map
      (fun p => p.2.session) = some s := by
  induction tabs with
  | nil => simp [List.find?] at h
  | cons p rest ih =>
    by_cases hp : p.1 = tabId
    · simp [setTabSession, List.find?_cons_of_pos, hp]
    · have hhead : (if p.1 = tabId then (p.1, { p.2 with session := s }) else p) = p := by
        simp [hp]
      have h2 : ((rest.find? (fun q => q.1 = tabId)).isSome : Bool) = true := by
        simpa [List.find?_cons_of_neg, hp] using h
      have hrec := ih h2
      simpa [setTabSession, hhead, List.find?_cons_of_neg, hp] using hrec

/-- C5 counterexample: a GlobalConfig change to fully disabled does not
re-evaluate or re-seed any open tab — with one already-open,
already-seeded allowed tab, the storage-change pass evaluates no tab
(`applyGlobalStateToAllTabs` returns early because
`isGlobalEnabled = false`), leaves the tab's session storage untouched,
and the already-seeded Clock Engine therefore keeps serving the fake
instant rather than restoring real time without a reload. -/
theorem disable_change_leaves_open_tab_faked :
    (onStorageChanged demoAllowed
      { tabs := [(1, demoTab seededSession)], reloadedTabs := [1],
        globalState := disabledGlobal }).2 = [] ∧
    (onStorageChanged demoAllowed
      { tabs := [(1, demoTab seededSession)], reloadedTabs := [1],
        globalState := disabledGlobal }).1.tabs = [(1, demoTab seededSession)] ∧
    fakeNowDate (fun _ => JSNum.num 500) 1000 (sessionViewOf seededSession) =
      JSNum.num 500 ∧
    fakeNowDate (fun _ => JSNum.num 500) 1000 (sessionViewOf seededSession) ≠
      JSNum.num 1000 := by
  decide

/-- C5 (amended): on a GlobalConfig change to fully disabled, the
coordinator clears `reloadedTabs` but `applyGlobalStateToAllTabs`
returns early without evaluating or re-seeding any open tab, so an
already-seeded tab keeps its fake-time keys until its next per-tab
evaluation (tab creation or navigation start), at which point the
disabled ContextState is seeded, removing both fake-time keys from the
context's storage without a reload. -/
theorem disabled_config_not_propagated_by_change_only_by_navigation
    (allowed : List String) (cs : CoordState) (tabId : Nat)
    (tab : TabState) (url : String) :
    (cs.globalState.isGlobalEnabled = false →
      (onStorageChanged allowed cs).1 = { cs with reloadedTabs := [] } ∧
      (onStorageChanged allowed cs).2 = []) ∧
    ((cs.tabs.find? (fun p => p.1 = tabId)).map Prod.snd = some tab →
      tab.url = some url →
      isRestrictedUrl url = false →
      isAllowedWebsite allowed url = true →
      cs.globalState.isGlobalEnabled = false →
      (applyGlobalStateToTab allowed cs tabId).2 = TabAction.seeded ∧
      ((applyGlobalStateToTab allowed cs tabId).1.tabs.find?
          (fun p => p.1 = tabId)).map (fun p => p.2.session) =
        some { timeTravelDate := none, timeTravelTickStartTimestamp := none }) := by
  constructor
  · intro hdis
    constructor <;> simp [onStorageChanged, applyGlobalStateToAllTabs, hdis]
  · intro hfind hurl hr ha hdis
    have happ : applyGlobalStateToTab allowed cs tabId =
        ({ cs with tabs := setTabSession cs.tabs tabId (injectedSeed cs.globalState) },
         TabAction.seeded) := by
      simp [applyGlobalStateToTab, hfind, hurl, hr, ha, hdis]
    have hseed : injectedSeed cs.globalState =
        { timeTravelDate := none, timeTravelTickStartTimestamp := none } := by
      simp [injectedSeed, hdis]
    have hsome : ((cs.tabs.find? (fun p => p.1 = tabId)).isSome : Bool) = true := by
      cases hf : cs.tabs.find? (fun p => p.1 = tabId) with
      | none => rw [hf] at hfind; cases hfind
      | some q => rfl
    rw [happ]
    exact ⟨rfl, by rw [hseed] at *; exact setTabSession_find_session cs.tabs tabId _ hsome⟩

/-- C5 witness: a concrete per-tab evaluation under the disabled global
state seeds the disabled context state, removing both fake-time keys. -/
theorem disabled_config_seeding_witness :
    (applyGlobalStateToTab demoAllowed
      { tabs := [(1, demoTab seededSession)], reloadedTabs := [],
        globalState := disabledGlobal } 1).2 = TabAction.seeded ∧
    ((applyGlobalStateToTab demoAllowed
      { tabs := [(1, demoTab seededSession)], reloadedTabs := [],
        globalState := disabledGlobal } 1).1.tabs.find?
        (fun p => p.1 = 1)).map (fun p => p.2.session) =
      some { timeTravelDate := none, timeTravelTickStartTimestamp := none } :=
  (disabled_config_not_propagated_by_change_only_by_navigation demoAllowed
    { tabs := [(1, demoTab seededSession)], reloadedTabs := [],
      globalState := disabledGlobal } 1 (demoTab seededSession)
    "https://example.com/").2
    (by decide) (by decide) (by decide) (by decide) (by decide)
